import Mathlib

/-!
Verification of the security policy rule-set engine of `pkg/security/secl/rules`
(policy loading, macro/rule merge semantics, version and ID filtering, Set-action
validation, and per-event rule evaluation with a variable store).

The Go implementation of the engine is not part of the source bundle; only its
behaviour-defining test file `policy_test.go` is.  The definitions below are
therefore modelled from the specification's description of the engine
(data model, loader contract, merge semantics, evaluation state machine), and
the concrete scenarios of `policy_test.go` are replayed against the model.
-/

namespace SeclRules

/-- Association list lookup used for the macro store, rule store and
variable stores (ordered maps keyed by strings or string pairs). -/
def alookup {κ α : Type} [DecidableEq κ] : List (κ × α) → κ → Option α
  | [], _ => none
  | (k, v) :: rest, key => if k = key then some v else alookup rest key

/-- In-place update of the entry of `key`, preserving its position. -/
def aupdate {κ α : Type} [DecidableEq κ] : List (κ × α) → κ → α → List (κ × α)
  | [], _, _ => []
  | (k, v) :: rest, key, nv =>
    if k = key then (k, nv) :: rest else (k, v) :: aupdate rest key nv

/-- Update the entry of `key` if present, otherwise append it at the end. -/
def aupsert {κ α : Type} [DecidableEq κ] (l : List (κ × α)) (key : κ) (v : α) :
    List (κ × α) :=
  match alookup l key with
  | some _ => aupdate l key v
  | none => l ++ [(key, v)]

/-- Modelled from the spec: agent versions compared by the semantic-version
filter (`github.com/Masterminds/semver` versions such as `7.38`). -/
structure SemVer where
  major : Nat
  minor : Nat
  patch : Nat
deriving DecidableEq

/-- Strict lexicographic order on versions. -/
def SemVer.ltv (a b : SemVer) : Bool :=
  if a.major ≠ b.major then decide (a.major < b.major)
  else if a.minor ≠ b.minor then decide (a.minor < b.minor)
  else decide (a.patch < b.patch)

/-- Comparators usable in an `AgentVersionConstraint` clause. -/
inductive VersionComp
  | vGe
  | vGt
  | vLe
  | vLt
  | vNe
  | vEq
deriving DecidableEq

/-- Whether agent version `v` satisfies one comparator clause. -/
def clauseHolds (v : SemVer) : VersionComp × SemVer → Bool
  | (.vGe, w) => !(SemVer.ltv v w)
  | (.vGt, w) => SemVer.ltv w v
  | (.vLe, w) => !(SemVer.ltv w v)
  | (.vLt, w) => SemVer.ltv v w
  | (.vNe, w) => decide (v ≠ w)
  | (.vEq, w) => decide (v = w)

/-- Split a character list at every occurrence of separator `c`. -/
def splitOnCharAux (c : Char) : List Char → List Char → List (List Char)
  | [], acc => [acc.reverse]
  | x :: rest, acc =>
    if x = c then acc.reverse :: splitOnCharAux c rest []
    else splitOnCharAux c rest (x :: acc)

/-- Split a character list on a separator character. -/
def splitOnChar (c : Char) (l : List Char) : List (List Char) :=
  splitOnCharAux c l []

/-- Drop leading spaces. -/
def dropSpaces : List Char → List Char
  | [] => []
  | x :: rest => if x = ' ' then dropSpaces rest else x :: rest

/-- Trim spaces on both ends. -/
def trimChars (l : List Char) : List Char :=
  (dropSpaces (dropSpaces l).reverse).reverse

/-- Value of a decimal digit character. -/
def digitVal (c : Char) : Option Nat :=
  if '0' ≤ c ∧ c ≤ '9' then some (c.toNat - 48) else none

/-- Decimal interpretation of a digit run. -/
def natOfCharsAux : List Char → Nat → Option Nat
  | [], acc => some acc
  | c :: rest, acc =>
    match digitVal c with
    | some d => natOfCharsAux rest (10 * acc + d)
    | none => none

/-- Parse a nonempty decimal literal. -/
def natOfChars : List Char → Option Nat
  | [] => none
  | l => natOfCharsAux l 0

/-- Parse a dotted version literal such as `7.38` or `7.38.1`. -/
def parseVersionChars (l : List Char) : Option SemVer :=
  match (splitOnChar '.' (trimChars l)).map natOfChars with
  | [some x] => some ⟨x, 0, 0⟩
  | [some x, some y] => some ⟨x, y, 0⟩
  | [some x, some y, some z] => some ⟨x, y, z⟩
  | _ => none

/-- Parse one comparator clause such as `>= 7.30` or `!= 7.38`. -/
def parseClauseChars (l : List Char) : Option (VersionComp × SemVer) :=
  match trimChars l with
  | '>' :: '=' :: rest => (parseVersionChars rest).map (fun w => (.vGe, w))
  | '<' :: '=' :: rest => (parseVersionChars rest).map (fun w => (.vLe, w))
  | '!' :: '=' :: rest => (parseVersionChars rest).map (fun w => (.vNe, w))
  | '>' :: rest => (parseVersionChars rest).map (fun w => (.vGt, w))
  | '<' :: rest => (parseVersionChars rest).map (fun w => (.vLt, w))
  | '=' :: rest => (parseVersionChars rest).map (fun w => (.vEq, w))
  | rest => (parseVersionChars rest).map (fun w => (.vEq, w))

/-- Modelled from the spec: an `AgentVersionConstraint` is a comma-separated
list of comparator clauses, combined by AND. -/
def parseConstraint (s : String) : Option (List (VersionComp × SemVer)) :=
  (splitOnChar ',' s.data).mapM parseClauseChars

/-- Whether agent version `v` is accepted by constraint string `c`
(the empty string means "no constraint"). -/
def constraintAcceptsStr (v : SemVer) (c : String) : Bool :=
  if c = "" then true
  else
    match parseConstraint c with
    | none => false
    | some cls => cls.all (clauseHolds v)

example : parseVersionChars "7.38".data = some ⟨7, 38, 0⟩ := by decide
example : constraintAcceptsStr ⟨7, 38, 0⟩ ">= 7.30, < 7.39, != 7.38" = false := by decide
example : constraintAcceptsStr ⟨7, 38, 0⟩ ">= 7.30, < 7.39" = true := by decide
example : constraintAcceptsStr ⟨7, 38, 0⟩ "> 7.37" = true := by decide
example : constraintAcceptsStr ⟨7, 38, 0⟩ "< 7.37" = false := by decide

/-- Base types of variable values (element type for arrays). -/
inductive BaseType
  | tBool
  | tString
  | tInt
deriving DecidableEq

/-- Event fields of the test model (`testEvent` in `policy_test.go`):
the `open.*` fields and the process context fields. -/
inductive Field
  | openFilename
  | openFlags
  | openMode
  | processName
  | processUid
  | processIsRoot
deriving DecidableEq

/-- Base type of an event field in the test model. -/
def Field.base : Field → BaseType
  | .openFilename => .tString
  | .openFlags => .tInt
  | .openMode => .tInt
  | .processName => .tString
  | .processUid => .tInt
  | .processIsRoot => .tBool

/-- Runtime values held by SECL variables and constants
(the closed tagged-variant type of the spec's design notes). -/
inductive CVal
  | vBool (b : Bool)
  | vStr (s : String)
  | vInt (n : Int)
  | vStrList (xs : List String)
  | vIntList (xs : List Int)
deriving DecidableEq

/-- Terms of a compiled rule expression: literals, event fields,
variable references and macro references. -/
inductive Term
  | lit (v : CVal)
  | field (f : Field)
  | varRef (scope : String) (name : String)
  | macroRef (id : String)
deriving DecidableEq

/-- Modelled from the spec: a compiled boolean predicate over an event,
as produced by the external Expression Engine. -/
inductive Expr
  | cmpEq (l r : Term)
  | cmpNe (l r : Term)
  | cmpIn (l r : Term)
  | and (a b : Expr)
deriving DecidableEq

/-- Macro identifiers referenced by a term. -/
def Term.macroRefsT : Term → List String
  | .macroRef id => [id]
  | _ => []

/-- Macro identifiers referenced by an expression. -/
def Expr.macroRefs : Expr → List String
  | .cmpEq l r => l.macroRefsT ++ r.macroRefsT
  | .cmpNe l r => l.macroRefsT ++ r.macroRefsT
  | .cmpIn l r => l.macroRefsT ++ r.macroRefsT
  | .and a b => a.macroRefs ++ b.macroRefs

/-- Event type determined by one field: `open.*` fields pin the rule to
`open` events, process context fields are common to every event type. -/
def Field.eventTypeF : Field → Option String
  | .openFilename => some "open"
  | .openFlags => some "open"
  | .openMode => some "open"
  | _ => none

/-- Event types contributed by a term. -/
def Term.eventTypesT : Term → List String
  | .field f =>
    match f.eventTypeF with
    | some t => [t]
    | none => []
  | _ => []

/-- Event types mentioned by an expression. -/
def Expr.eventTypes : Expr → List String
  | .cmpEq l r => l.eventTypesT ++ r.eventTypesT
  | .cmpNe l r => l.eventTypesT ++ r.eventTypesT
  | .cmpIn l r => l.eventTypesT ++ r.eventTypesT
  | .and a b => a.eventTypes ++ b.eventTypes

/-- Declared event type of a compiled rule (none means type-agnostic). -/
def Expr.eventTypeOf (e : Expr) : Option String :=
  e.eventTypes.head?

/-- Modelled from the spec: the outcome of handing an expression string to the
external Expression Engine — either a compiled predicate or a syntax error. -/
inductive ExprSrc
  | valid (e : Expr)
  | synErr (msg : String)
deriving DecidableEq

/-- One scalar component of a raw dynamically-typed Go Set value. -/
inductive RawScalar
  | b (x : Bool)
  | s (x : String)
  | i (x : Int)
deriving DecidableEq

/-- Base type of a raw scalar. -/
def RawScalar.base : RawScalar → BaseType
  | .b _ => .tBool
  | .s _ => .tString
  | .i _ => .tInt

/-- Raw value carried by a `SetDefinition` before load-time validation:
a scalar or an arbitrary (possibly heterogeneous) array. -/
inductive RawValue
  | scalar (x : RawScalar)
  | array (xs : List RawScalar)
deriving DecidableEq

/-- Element type of a raw array: only homogeneous string and int arrays are
valid Set values (bool and mixed arrays are rejected). -/
def arrayBase (xs : List RawScalar) : Option BaseType :=
  if xs.all (fun x => x.base = .tString) then some .tString
  else if xs.all (fun x => x.base = .tInt) then some .tInt
  else none

/-- `SetDefinition`: the Set action of a rule (`Name`, `Value` xor `Field`,
optional `Scope`, `Append` flag).  `value := none` models a Go nil value. -/
structure SetDefinition where
  name : String
  value : Option RawValue := none
  field : Option Field := none
  scope : String := ""
  append : Bool := false
deriving DecidableEq

/-- `ActionDefinition`: currently only a Set action. -/
structure ActionDefinition where
  set : Option SetDefinition := none
deriving DecidableEq

/-- The `Combine` value letting a later macro redefinition merge into an
earlier one. -/
def MergePolicy : String := "merge"

/-- The `Combine` value letting a later rule redefinition replace an
earlier one. -/
def OverridePolicy : String := "override"

/-- `RuleDefinition`: ID, expression, actions, `Combine` flag and agent
version constraint. -/
structure RuleDefinition where
  id : String
  expression : ExprSrc
  actions : List ActionDefinition := []
  combine : String := ""
  agentVersionConstraint : String := ""
deriving DecidableEq

/-- Body of a macro: a value list (Go `Values`) or an int-list expression
(Go `Expression` such as the literal list of `macro1`). -/
inductive MacroBody
  | values (vs : List String)
  | ints (vs : List Int)
deriving DecidableEq

/-- `MacroDefinition`: ID, body, `Combine` flag and agent version constraint. -/
structure MacroDefinition where
  id : String
  body : MacroBody
  combine : String := ""
  agentVersionConstraint : String := ""
deriving DecidableEq

/-- `PolicyDef`: one policy document with its ordered macro and rule
definitions; the name comes from the policy file. -/
structure PolicyDef where
  name : String
  macros : List MacroDefinition := []
  rules : List RuleDefinition := []
deriving DecidableEq

/-- The rule/macro filters used by the loader: the agent-version filter and
the rule-ID allow-list filter. -/
inductive LoadFilter
  | agentVersion (v : SemVer)
  | ruleID (id : String)
deriving DecidableEq

/-- `RuleFilter.IsAccepted` for each filter kind. -/
def LoadFilter.acceptsRule : LoadFilter → RuleDefinition → Bool
  | .agentVersion v, r => constraintAcceptsStr v r.agentVersionConstraint
  | .ruleID i, r => decide (r.id = i)

/-- `MacroFilter.IsAccepted` for each filter kind (the rule-ID filter does
not constrain macros). -/
def LoadFilter.acceptsMacro : LoadFilter → MacroDefinition → Bool
  | .agentVersion v, m => constraintAcceptsStr v m.agentVersionConstraint
  | .ruleID _, _ => true

/-- `PolicyLoaderOpts`: the macro and rule filters supplied to a load. -/
structure PolicyLoaderOpts where
  macroFilters : List LoadFilter := []
  ruleFilters : List LoadFilter := []
deriving DecidableEq

/-- Structural errors of a `SetDefinition` and the load-time variable type
conflict. -/
inductive SetErr
  | bothFieldAndValue
  | nilValue
  | invalidArray
  | typeConflict
deriving DecidableEq

/-- The individually enumerable errors aggregated by `LoadPolicies`. -/
inductive LoadError
  | macroIdConflict (id : String)
  | ruleIdConflict (id : String)
  | ruleSynErr (id : String) (msg : String)
  | ruleUnknownMacro (id : String) (m : String)
  | ruleActionErr (id : String) (e : SetErr)
deriving DecidableEq

/-- Message rendered for a load error (mirrors the messages asserted on in
`TestRuleErrorLoading`). -/
def LoadError.message : LoadError → String
  | .macroIdConflict id =>
    "macro `" ++ id ++ "` definition error: multiple definition with the same ID"
  | .ruleIdConflict id =>
    "rule `" ++ id ++ "` definition error: multiple definition with the same ID"
  | .ruleSynErr id msg =>
    "rule `" ++ id ++ "` definition error: syntax error: " ++ msg
  | .ruleUnknownMacro id m =>
    "rule `" ++ id ++ "` definition error: unknown macro `" ++ m ++ "`"
  | .ruleActionErr id _ =>
    "rule `" ++ id ++ "` definition error: invalid set action"

/-- Per-policy diagnostics: skipped (filtered-out) macro and rule IDs. -/
structure PolicyInfo where
  name : String
  macroSkipped : List String := []
  ruleSkipped : List String := []
deriving DecidableEq

/-- Resolve the base type of a Set action and reject structurally invalid
definitions: both Field and Value, neither (nil value), bool or
heterogeneous arrays. -/
def SetDefinition.resolveBase (sd : SetDefinition) : Except SetErr BaseType :=
  match sd.value, sd.field with
  | some _, some _ => .error .bothFieldAndValue
  | none, none => .error .nilValue
  | none, some f => .ok f.base
  | some (.scalar x), none => .ok x.base
  | some (.array xs), none =>
    match arrayBase xs with
    | some t => .ok t
    | none => .error .invalidArray

/-- Load-time simulation step for one Set action: check its structure and
that its base type agrees with the type already pinned for the same
(scope, name), pinning it on first assignment. -/
def checkSet (tbl : List ((String × String) × BaseType)) (sd : SetDefinition) :
    Except SetErr (List ((String × String) × BaseType)) :=
  match sd.resolveBase with
  | .error e => .error e
  | .ok t =>
    match alookup tbl (sd.scope, sd.name) with
    | some t0 => if t0 = t then .ok tbl else .error .typeConflict
    | none => .ok (tbl ++ [((sd.scope, sd.name), t)])

/-- Load-time simulation of a rule's ordered action list. -/
def checkActions (tbl : List ((String × String) × BaseType)) :
    List ActionDefinition → Except SetErr (List ((String × String) × BaseType))
  | [] => .ok tbl
  | a :: rest =>
    match a.set with
    | none => checkActions tbl rest
    | some sd =>
      match checkSet tbl sd with
      | .error e => .error e
      | .ok tbl2 => checkActions tbl2 rest

/-- Merge of a later macro body into an earlier one under the merge combine
policy: value-list concatenation. -/
def mergeMacroBody : MacroBody → MacroBody → MacroBody
  | .values a, .values b => .values (a ++ b)
  | .ints a, .ints b => .ints (a ++ b)
  | a, _ => a

/-- Modelled from the spec: loader pass over one policy's macros.  A macro
rejected by a filter is skipped; a macro whose ID is new is registered; a
redefinition merges under `MergePolicy` and is otherwise an ID-conflict
error, the first definition staying active. -/
def loadMacros (filters : List LoadFilter) :
    List MacroDefinition → List (String × MacroDefinition) → List LoadError →
    List String →
    List (String × MacroDefinition) × List LoadError × List String
  | [], ms, errs, skipped => (ms, errs, skipped)
  | m :: rest, ms, errs, skipped =>
    if filters.all (fun f => f.acceptsMacro m) then
      match alookup ms m.id with
      | none => loadMacros filters rest (ms ++ [(m.id, m)]) errs skipped
      | some m0 =>
        if m.combine = MergePolicy then
          loadMacros filters rest
            (aupdate ms m.id { m0 with body := mergeMacroBody m0.body m.body })
            errs skipped
        else
          loadMacros filters rest ms (errs ++ [.macroIdConflict m.id]) skipped
    else
      loadMacros filters rest ms errs (skipped ++ [m.id])

/-- Modelled from the spec: loader pass over one policy's rules, with
`OverridePolicy` substituting merge as the redefinition escape hatch
(override replaces the earlier definition). -/
def loadRules (filters : List LoadFilter) :
    List RuleDefinition → List (String × RuleDefinition) → List LoadError →
    List String →
    List (String × RuleDefinition) × List LoadError × List String
  | [], rs, errs, skipped => (rs, errs, skipped)
  | r :: rest, rs, errs, skipped =>
    if filters.all (fun f => f.acceptsRule r) then
      match alookup rs r.id with
      | none => loadRules filters rest (rs ++ [(r.id, r)]) errs skipped
      | some _ =>
        if r.combine = OverridePolicy then
          loadRules filters rest (aupdate rs r.id r) errs skipped
        else
          loadRules filters rest rs (errs ++ [.ruleIdConflict r.id]) skipped
    else
      loadRules filters rest rs errs (skipped ++ [r.id])

/-- Accumulated state of the merge phase of a load. -/
structure MergeState where
  macroDefs : List (String × MacroDefinition) := []
  ruleDefs : List (String × RuleDefinition) := []
  errors : List LoadError := []
  policies : List PolicyInfo := []
deriving DecidableEq

/-- Modelled from the spec: merge phase over the provider's ordered policy
documents (order determines first-wins precedence). -/
def mergePolicies (opts : PolicyLoaderOpts) :
    List PolicyDef → MergeState → MergeState
  | [], st => st
  | p :: rest, st =>
    let mres := loadMacros opts.macroFilters p.macros st.macroDefs [] []
    let rres := loadRules opts.ruleFilters p.rules st.ruleDefs [] []
    mergePolicies opts rest
      { macroDefs := mres.1
        ruleDefs := rres.1
        errors := st.errors ++ mres.2.1 ++ rres.2.1
        policies := st.policies ++
          [{ name := p.name, macroSkipped := mres.2.2, ruleSkipped := rres.2.2 }] }

/-- A compiled rule: its definition, compiled predicate and declared event
type. -/
structure CompiledRule where
  rdef : RuleDefinition
  expr : Expr
  eventType : Option String
deriving DecidableEq

/-- Modelled from the spec: compile phase.  Each surviving rule definition is
compiled against the Expression Engine (collecting syntax errors per rule),
its macro references resolved against the merged macro store, and its Set
actions simulated for type compatibility; a failing rule is excluded and the
rest of the load proceeds. -/
def compileRules (ms : List (String × MacroBody)) :
    List (String × RuleDefinition) → List (String × CompiledRule) →
    List ((String × String) × BaseType) → List LoadError →
    List (String × CompiledRule) × List LoadError
  | [], rules, _, errs => (rules, errs)
  | (_, r) :: rest, rules, tbl, errs =>
    match r.expression with
    | .synErr msg => compileRules ms rest rules tbl (errs ++ [.ruleSynErr r.id msg])
    | .valid e =>
      match e.macroRefs.find? (fun id => (alookup ms id).isNone) with
      | some missing =>
        compileRules ms rest rules tbl (errs ++ [.ruleUnknownMacro r.id missing])
      | none =>
        match checkActions tbl r.actions with
        | .error se =>
          compileRules ms rest rules tbl (errs ++ [.ruleActionErr r.id se])
        | .ok tbl2 =>
          compileRules ms rest
            (rules ++ [(r.id, ⟨r, e, e.eventTypeOf⟩)]) tbl2 errs

/-- The `RuleSet`: merged macro store, compiled rule store and per-policy
skipped diagnostics. -/
structure RuleSet where
  macroStore : List (String × MacroBody) := []
  rules : List (String × CompiledRule) := []
  policies : List PolicyInfo := []
deriving DecidableEq

/-- Modelled from the spec: `LoadPolicies` — merge the ordered policy
documents, then compile macros and rules, returning the new rule set and the
aggregated enumerable load errors. -/
def loadPolicies (ps : List PolicyDef) (opts : PolicyLoaderOpts) :
    RuleSet × List LoadError :=
  let st := mergePolicies opts ps {}
  let ms := st.macroDefs.map (fun p => (p.1, p.2.body))
  let cres := compileRules ms st.ruleDefs [] [] []
  ({ macroStore := ms, rules := cres.1, policies := st.policies },
    st.errors ++ cres.2)

/-- Modelled from the spec: a second call to `LoadPolicies` on a rule set
fully resets and rebuilds the macro and rule stores from the provider's
current snapshot (idempotent-replacing reload, no incremental patching). -/
def RuleSet.loadPoliciesInto (_prev : RuleSet) (ps : List PolicyDef)
    (opts : PolicyLoaderOpts) : RuleSet × List LoadError :=
  loadPolicies ps opts

/-- The `open` syscall context of a test event. -/
structure TestOpen where
  filename : String := ""
  flags : Int := 0
  mode : Int := 0
deriving DecidableEq

/-- The process context of a test event. -/
structure TestProcess where
  name : String := ""
  uid : Int := 0
  isRoot : Bool := false
deriving DecidableEq

/-- `testEvent`: kind plus the `open` and process contexts
(the Go field `open` is `openf` here, `open` being reserved in Lean). -/
structure TestEvent where
  kind : String := ""
  openf : TestOpen := {}
  process : TestProcess := {}
deriving DecidableEq

/-- Runtime value of an event field. -/
def Field.value (ev : TestEvent) : Field → CVal
  | .openFilename => .vStr ev.openf.filename
  | .openFlags => .vInt ev.openf.flags
  | .openMode => .vInt ev.openf.mode
  | .processName => .vStr ev.process.name
  | .processUid => .vInt ev.process.uid
  | .processIsRoot => .vBool ev.process.isRoot

/-- Variable stores: the RuleSet's flat global store plus the per-process
store materialized per entity (keyed by process name and variable name). -/
structure VarState where
  global : List (String × CVal) := []
  scopedVars : List ((String × String) × CVal) := []
deriving DecidableEq

/-- Resolve a variable reference at evaluation time; an unset variable
resolves to `none` (its comparisons then evaluate false, never a crash). -/
def getVar (st : VarState) (ev : TestEvent) (scope name : String) : Option CVal :=
  if scope = "" then alookup st.global name
  else if scope = "process" then alookup st.scopedVars (ev.process.name, name)
  else none

/-- Evaluate a term to a value, `none` meaning unresolvable. -/
def evalTerm (rs : RuleSet) (st : VarState) (ev : TestEvent) : Term → Option CVal
  | .lit v => some v
  | .field f => some (f.value ev)
  | .varRef scope name => getVar st ev scope name
  | .macroRef id =>
    match alookup rs.macroStore id with
    | some (.ints xs) => some (.vIntList xs)
    | some (.values xs) => some (.vStrList xs)
    | none => none

/-- Membership of a scalar in a list value. -/
def cvalIn : CVal → CVal → Bool
  | .vStr s, .vStrList xs => decide (s ∈ xs)
  | .vInt n, .vIntList xs => decide (n ∈ xs)
  | _, _ => false

/-- Evaluate a compiled predicate against an event and the variable state;
comparisons involving an unresolvable term evaluate false. -/
def evalExpr (rs : RuleSet) (st : VarState) (ev : TestEvent) : Expr → Bool
  | .cmpEq l r =>
    match evalTerm rs st ev l, evalTerm rs st ev r with
    | some a, some b => decide (a = b)
    | _, _ => false
  | .cmpNe l r =>
    match evalTerm rs st ev l, evalTerm rs st ev r with
    | some a, some b => decide (a ≠ b)
    | _, _ => false
  | .cmpIn l r =>
    match evalTerm rs st ev l, evalTerm rs st ev r with
    | some a, some b => cvalIn a b
    | _, _ => false
  | .and a b => evalExpr rs st ev a && evalExpr rs st ev b

/-- Convert a validated raw Set value to a runtime value
(`none` for values that load-time validation rejects). -/
def rawToCVal : RawValue → Option CVal
  | .scalar (.b x) => some (.vBool x)
  | .scalar (.s x) => some (.vStr x)
  | .scalar (.i x) => some (.vInt x)
  | .array xs =>
    match arrayBase xs with
    | some .tString =>
      some (.vStrList (xs.filterMap (fun x => match x with | .s v => some v | _ => none)))
    | some .tInt =>
      some (.vIntList (xs.filterMap (fun x => match x with | .i v => some v | _ => none)))
    | _ => none

/-- Write a variable at (scope, name). -/
def setVar (st : VarState) (ev : TestEvent) (scope name : String) (v : CVal) :
    VarState :=
  if scope = "" then { st with global := aupsert st.global name v }
  else if scope = "process" then
    { st with scopedVars := aupsert st.scopedVars (ev.process.name, name) v }
  else st

/-- Append a resolved value onto the existing variable value (creating a
fresh array when unset); a type mismatch leaves the value unchanged. -/
def appendCVal : Option CVal → CVal → Option CVal
  | none, .vStr s => some (.vStrList [s])
  | none, .vInt n => some (.vIntList [n])
  | none, .vStrList xs => some (.vStrList xs)
  | none, .vIntList xs => some (.vIntList xs)
  | none, .vBool _ => none
  | some (.vStrList xs), .vStr s => some (.vStrList (xs ++ [s]))
  | some (.vStrList xs), .vStrList ys => some (.vStrList (xs ++ ys))
  | some (.vIntList xs), .vInt n => some (.vIntList (xs ++ [n]))
  | some (.vIntList xs), .vIntList ys => some (.vIntList (xs ++ ys))
  | some _, _ => none

/-- Execute one Set action: resolve the literal value or the event field,
then append to or overwrite the variable at (Name, Scope). -/
def execSet (st : VarState) (ev : TestEvent) (sd : SetDefinition) : VarState :=
  let newVal : Option CVal :=
    match sd.value, sd.field with
    | some rv, none => rawToCVal rv
    | none, some f => some (f.value ev)
    | _, _ => none
  match newVal with
  | none => st
  | some v =>
    if sd.append then
      match appendCVal (getVar st ev sd.scope sd.name) v with
      | some v2 => setVar st ev sd.scope sd.name v2
      | none => st
    else setVar st ev sd.scope sd.name v

/-- Execute a matched rule's ordered action list sequentially. -/
def execActions (st : VarState) (ev : TestEvent) :
    List ActionDefinition → VarState
  | [] => st
  | a :: rest =>
    match a.set with
    | some sd => execActions (execSet st ev sd) ev rest
    | none => execActions st ev rest

/-- Whether a compiled rule applies to an event: its declared event type
matches the event's kind, or the rule is type-agnostic. -/
def ruleApplies (cr : CompiledRule) (ev : TestEvent) : Bool :=
  match cr.eventType with
  | none => true
  | some t => decide (t = ev.kind)

/-- Evaluation pass over the compiled rules, in load order, with no
short-circuit after a match; each matching rule's actions run sequentially. -/
def evalRules (rs : RuleSet) (ev : TestEvent) :
    List (String × CompiledRule) → Bool → VarState → Bool × VarState
  | [], matched, st => (matched, st)
  | (_, cr) :: rest, matched, st =>
    if ruleApplies cr ev && evalExpr rs st ev cr.expr then
      evalRules rs ev rest true (execActions st ev cr.rdef.actions)
    else
      evalRules rs ev rest matched st

/-- `Evaluate(event)`: run every applicable compiled rule against the event,
returning whether any rule matched and the updated variable state. -/
def evaluate (rs : RuleSet) (st : VarState) (ev : TestEvent) : Bool × VarState :=
  evalRules rs ev rs.rules false st

/-- The policy of `TestRuleErrorLoading`: a valid `testA`, a syntactically
invalid `testB`, and a duplicate `testA`. -/
def ruleErrPolicy : PolicyDef :=
  { name := "test.policy"
    rules :=
      [{ id := "testA"
         expression := .valid (.cmpEq (.field .openFilename) (.lit (.vStr "/tmp/test"))) },
       { id := "testB"
         expression := .synErr "1:16: unexpected token" },
       { id := "testA"
         expression := .valid (.cmpEq (.field .openFilename) (.lit (.vStr "/tmp/toto"))) }] }

/-- The Set actions of `test_rule` in `TestActionSetVariable`. -/
def setVarActions : List ActionDefinition :=
  [⟨some { name := "var1", value := some (.scalar (.b true)) }⟩,
   ⟨some { name := "var2", value := some (.scalar (.s "value")) }⟩,
   ⟨some { name := "var3", value := some (.scalar (.i 123)) }⟩,
   ⟨some { name := "var4", value := some (.scalar (.i 123)), scope := "process" }⟩,
   ⟨some { name := "var5", value := some (.array [.s "val1"]) }⟩,
   ⟨some { name := "var6", value := some (.array [.i 123]) }⟩,
   ⟨some { name := "var7", value := some (.array [.s "aaa"]), append := true }⟩,
   ⟨some { name := "var8", value := some (.array [.i 123]), append := true }⟩,
   ⟨some { name := "var9", field := some .openFilename }⟩,
   ⟨some { name := "var10", field := some .openFilename, append := true }⟩]

/-- The expression of `test_rule2` in `TestActionSetVariable`: its filename
condition conjoined with one check per variable set by `test_rule`. -/
def setVarCheckExpr : Expr :=
  .and (.cmpEq (.field .openFilename) (.lit (.vStr "/tmp/test2")))
    (.and (.cmpEq (.varRef "" "var1") (.lit (.vBool true)))
      (.and (.cmpEq (.varRef "" "var2") (.lit (.vStr "value")))
        (.and (.cmpEq (.varRef "" "var3") (.lit (.vInt 123)))
          (.and (.cmpEq (.varRef "process" "var4") (.lit (.vInt 123)))
            (.and (.cmpIn (.lit (.vStr "val1")) (.varRef "" "var5"))
              (.and (.cmpIn (.lit (.vInt 123)) (.varRef "" "var6"))
                (.and (.cmpIn (.lit (.vStr "aaa")) (.varRef "" "var7"))
                  (.and (.cmpIn (.lit (.vInt 123)) (.varRef "" "var8"))
                    (.and (.cmpEq (.varRef "" "var9") (.lit (.vStr "/tmp/test")))
                      (.cmpIn (.lit (.vStr "/tmp/test")) (.varRef "" "var10")))))))))))

/-- The policy of `TestActionSetVariable`. -/
def setVarPolicy : PolicyDef :=
  { name := "test.policy"
    rules :=
      [{ id := "test_rule"
         expression := .valid (.cmpEq (.field .openFilename) (.lit (.vStr "/tmp/test")))
         actions := setVarActions },
       { id := "test_rule2"
         expression := .valid setVarCheckExpr }] }

/-- The rule set loaded from `setVarPolicy`. -/
def setVarRS : RuleSet := (loadPolicies [setVarPolicy] {}).1

/-- First policy of `TestMacroMerge`: `test_rule` and macro `test_macro`. -/
def macroMergeP1 : PolicyDef :=
  { name := "test.policy"
    macros := [{ id := "test_macro", body := .values ["/usr/bin/vi"] }]
    rules :=
      [{ id := "test_rule"
         expression := .valid (.and
           (.cmpEq (.field .openFilename) (.lit (.vStr "/tmp/test")))
           (.cmpEq (.field .processName) (.lit (.vStr "/usr/bin/vim")))) }] }

/-- Second policy of `TestMacroMerge`, redefining `test_macro` with the merge
combine policy. -/
def macroMergeP2m : PolicyDef :=
  { name := "test2.policy"
    macros := [{ id := "test_macro", body := .values ["/usr/bin/vim"]
                 combine := MergePolicy }] }

/-- Second policy of `TestMacroMerge` after its `Combine` flag is cleared. -/
def macroMergeP2c : PolicyDef :=
  { name := "test2.policy"
    macros := [{ id := "test_macro", body := .values ["/usr/bin/vim"] }] }

/-- The policy of `TestRuleAgentConstraint`. -/
def constraintPolicy : PolicyDef :=
  { name := "test.policy"
    macros :=
      [{ id := "macro1", body := .ints [1, 2] },
       { id := "macro2", body := .ints [3, 4]
         agentVersionConstraint := ">= 7.37, < 7.38" },
       { id := "macro2", body := .ints [3, 4, 5]
         agentVersionConstraint := ">= 7.38" }]
    rules :=
      [{ id := "no_constraint"
         expression := .valid (.cmpEq (.field .openFilename) (.lit (.vStr "/tmp/test"))) },
       { id := "conflict"
         expression := .valid (.cmpEq (.field .openFilename) (.lit (.vStr "/tmp/test1")))
         agentVersionConstraint := "< 7.37" },
       { id := "conflict"
         expression := .valid (.cmpEq (.field .openFilename) (.lit (.vStr "/tmp/test2")))
         agentVersionConstraint := ">= 7.37" },
       { id := "basic"
         expression := .valid (.cmpEq (.field .openFilename) (.lit (.vStr "/tmp/test")))
         agentVersionConstraint := "< 7.37" },
       { id := "basic2"
         expression := .valid (.cmpEq (.field .openFilename) (.lit (.vStr "/tmp/test")))
         agentVersionConstraint := "> 7.37" },
       { id := "range"
         expression := .valid (.cmpEq (.field .openFilename) (.lit (.vStr "/tmp/test")))
         agentVersionConstraint := ">= 7.30, < 7.39" },
       { id := "range_not"
         expression := .valid (.cmpEq (.field .openFilename) (.lit (.vStr "/tmp/test")))
         agentVersionConstraint := ">= 7.30, < 7.39, != 7.38" },
       { id := "rc_prerelease"
         expression := .valid (.cmpEq (.field .openFilename) (.lit (.vStr "/tmp/test")))
         agentVersionConstraint := ">= 7.38" },
       { id := "with_macro1"
         expression := .valid (.and
           (.cmpEq (.field .openFilename) (.lit (.vStr "/tmp/test")))
           (.cmpIn (.field .openMode) (.macroRef "macro1")))
         agentVersionConstraint := ">= 7.38" },
       { id := "with_macro2"
         expression := .valid (.and
           (.cmpEq (.field .openFilename) (.lit (.vStr "/tmp/test")))
           (.cmpIn (.field .openMode) (.macroRef "macro2")))
         agentVersionConstraint := ">= 7.38" }] }

/-- The loader options of `TestRuleAgentConstraint`: agent-version filter at
version 7.38 for both macros and rules. -/
def opts738 : PolicyLoaderOpts :=
  { macroFilters := [.agentVersion ⟨7, 38, 0⟩]
    ruleFilters := [.agentVersion ⟨7, 38, 0⟩] }

example :
    (loadPolicies [ruleErrPolicy] {}).2 =
      [.ruleIdConflict "testA", .ruleSynErr "testB" "1:16: unexpected token"] := by
  decide

example :
    (alookup (loadPolicies [ruleErrPolicy] {}).1.rules "testA").map
        (fun cr => cr.rdef.expression) =
      some (.valid (.cmpEq (.field .openFilename) (.lit (.vStr "/tmp/test")))) := by
  decide

example : (loadPolicies [constraintPolicy] opts738).2 = [] := by decide

example :
    ((loadPolicies [constraintPolicy] opts738).1.rules.map (fun p => p.1)) =
      ["no_constraint", "conflict", "basic2", "range", "rc_prerelease",
       "with_macro1", "with_macro2"] := by
  decide

example :
    (loadPolicies [constraintPolicy] opts738).1.policies =
      [{ name := "test.policy", macroSkipped := ["macro2"],
         ruleSkipped := ["conflict", "basic", "range_not"] }] := by
  decide

/-- The typeless first event of `TestActionSetVariable`. -/
def setVarEv0 : TestEvent := { process := { name := "myprocess" } }

/-- The matching `open` event of `TestActionSetVariable`. -/
def setVarEv1 : TestEvent :=
  { kind := "open", openf := { filename := "/tmp/test" }
    process := { name := "myprocess" } }

/-- The follow-up `open` event observing the variables set on `setVarEv1`. -/
def setVarEv2 : TestEvent :=
  { kind := "open", openf := { filename := "/tmp/test2" }
    process := { name := "myprocess" } }

example : (loadPolicies [setVarPolicy] {}).2 = [] := by decide
example : (evaluate setVarRS {} setVarEv0) = (false, {}) := by decide
example : (evaluate setVarRS {} setVarEv1).1 = true := by decide
example :
    alookup (evaluate setVarRS {} setVarEv1).2.global "var1" =
      some (.vBool true) := by decide
example :
    (evaluate setVarRS (evaluate setVarRS {} setVarEv1).2 setVarEv2).1 = true := by
  decide

example :
    (loadPolicies [macroMergeP1, macroMergeP2m] {}).2 = [] ∧
    alookup (loadPolicies [macroMergeP1, macroMergeP2m] {}).1.macroStore "test_macro" =
      some (.values ["/usr/bin/vi", "/usr/bin/vim"]) := by decide

example :
    (RuleSet.loadPoliciesInto (loadPolicies [macroMergeP1, macroMergeP2m] {}).1
        [macroMergeP1, macroMergeP2c] {}).2 = [.macroIdConflict "test_macro"] ∧
    alookup (loadPolicies [macroMergeP1, macroMergeP2c] {}).1.macroStore "test_macro" =
      some (.values ["/usr/bin/vi"]) := by decide

/-- C1: for every ordered pair of loaded policies in which a later policy
redefines a macro ID without the merge combine policy, or redefines a rule ID
without the override combine policy, `LoadPolicies` reports an ID-conflict
load error for each redefinition and the first-loaded macro body and rule
definition remain the active ones in the rule set (the later duplicates are
rejected). -/
theorem idConflict_reports_error_first_wins
    (m1 m2 : MacroDefinition) (r1 r2 : RuleDefinition) (e1 : Expr)
    (hmid : m2.id = m1.id) (hmc : ¬ m2.combine = MergePolicy)
    (hrid : r2.id = r1.id) (hrc : ¬ r2.combine = OverridePolicy)
    (hr1e : r1.expression = ExprSrc.valid e1) (hrefs : e1.macroRefs = [])
    (hacts : r1.actions = []) :
    (loadPolicies [⟨"p1", [m1], [r1]⟩, ⟨"p2", [m2], [r2]⟩] {}).2 =
      [LoadError.macroIdConflict m1.id, LoadError.ruleIdConflict r1.id] ∧
    alookup (loadPolicies [⟨"p1", [m1], [r1]⟩, ⟨"p2", [m2], [r2]⟩] {}).1.macroStore
        m1.id = some m1.body ∧
    (alookup (loadPolicies [⟨"p1", [m1], [r1]⟩, ⟨"p2", [m2], [r2]⟩] {}).1.rules
        r1.id).map (fun cr => cr.rdef) = some r1 := by
  simp [loadPolicies, mergePolicies, loadMacros, loadRules, compileRules, alookup,
    hmid, hrid, hr1e, hrefs, hacts, hmc, hrc, checkActions]

/-- Witness for C1 at the `TestMacroMerge`/`TestRuleMerge` definitions with
the combine flags cleared. -/
theorem idConflict_reports_error_first_wins_witness :
    (loadPolicies [⟨"p1", [⟨"test_macro", .values ["/usr/bin/vi"], "", ""⟩],
          [⟨"test_rule", .valid (.cmpEq (.field .openFilename) (.lit (.vStr "/tmp/test"))),
            [], "", ""⟩]⟩,
        ⟨"p2", [⟨"test_macro", .values ["/usr/bin/vim"], "", ""⟩],
          [⟨"test_rule", .valid (.cmpEq (.field .openFilename) (.lit (.vStr "/tmp/test"))),
            [], "", ""⟩]⟩] {}).2 =
      [LoadError.macroIdConflict "test_macro", LoadError.ruleIdConflict "test_rule"] ∧
    alookup (loadPolicies [⟨"p1", [⟨"test_macro", .values ["/usr/bin/vi"], "", ""⟩],
          [⟨"test_rule", .valid (.cmpEq (.field .openFilename) (.lit (.vStr "/tmp/test"))),
            [], "", ""⟩]⟩,
        ⟨"p2", [⟨"test_macro", .values ["/usr/bin/vim"], "", ""⟩],
          [⟨"test_rule", .valid (.cmpEq (.field .openFilename) (.lit (.vStr "/tmp/test"))),
            [], "", ""⟩]⟩] {}).1.macroStore "test_macro" =
      some (.values ["/usr/bin/vi"]) ∧
    (alookup (loadPolicies [⟨"p1", [⟨"test_macro", .values ["/usr/bin/vi"], "", ""⟩],
          [⟨"test_rule", .valid (.cmpEq (.field .openFilename) (.lit (.vStr "/tmp/test"))),
            [], "", ""⟩]⟩,
        ⟨"p2", [⟨"test_macro", .values ["/usr/bin/vim"], "", ""⟩],
          [⟨"test_rule", .valid (.cmpEq (.field .openFilename) (.lit (.vStr "/tmp/test"))),
            [], "", ""⟩]⟩] {}).1.rules "test_rule").map (fun cr => cr.rdef) =
      some ⟨"test_rule", .valid (.cmpEq (.field .openFilename) (.lit (.vStr "/tmp/test"))),
        [], "", ""⟩ :=
  idConflict_reports_error_first_wins
    ⟨"test_macro", .values ["/usr/bin/vi"], "", ""⟩
    ⟨"test_macro", .values ["/usr/bin/vim"], "", ""⟩
    ⟨"test_rule", .valid (.cmpEq (.field .openFilename) (.lit (.vStr "/tmp/test"))), [], "", ""⟩
    ⟨"test_rule", .valid (.cmpEq (.field .openFilename) (.lit (.vStr "/tmp/test"))), [], "", ""⟩
    (.cmpEq (.field .openFilename) (.lit (.vStr "/tmp/test")))
    rfl (by decide) rfl (by decide) rfl rfl rfl

/-- C2: a second call to `LoadPolicies` fully resets and rebuilds the macro
and rule stores from the provider's current snapshot: the result never
depends on the previous rule set, loading the identical policy set twice
yields the identical rule set and the identical (empty) error list, and when
the provider's content changed (the previously merging macro's combine flag
cleared) the second load re-runs conflict detection from scratch and fails
with an ID-conflict error while the first definition stays active. -/
theorem loadPolicies_reload_resets
    (prev : RuleSet) (ps : List PolicyDef) (opts : PolicyLoaderOpts) :
    RuleSet.loadPoliciesInto prev ps opts = loadPolicies ps opts ∧
    RuleSet.loadPoliciesInto (loadPolicies ps opts).1 ps opts = loadPolicies ps opts ∧
    ((loadPolicies [macroMergeP1, macroMergeP2m] {}).2 = [] ∧
      alookup (loadPolicies [macroMergeP1, macroMergeP2m] {}).1.macroStore
          "test_macro" = some (.values ["/usr/bin/vi", "/usr/bin/vim"])) ∧
    ((RuleSet.loadPoliciesInto (loadPolicies [macroMergeP1, macroMergeP2m] {}).1
          [macroMergeP1, macroMergeP2c] {}).2 = [.macroIdConflict "test_macro"] ∧
      alookup (RuleSet.loadPoliciesInto (loadPolicies [macroMergeP1, macroMergeP2m] {}).1
          [macroMergeP1, macroMergeP2c] {}).1.macroStore "test_macro" =
        some (.values ["/usr/bin/vi"])) :=
  ⟨rfl, rfl, by decide, by decide⟩

/-- Witness for C2 at the empty previous rule set and the `TestMacroMerge`
policy list. -/
theorem loadPolicies_reload_resets_witness :
    RuleSet.loadPoliciesInto {} [macroMergeP1, macroMergeP2m] {} =
      loadPolicies [macroMergeP1, macroMergeP2m] {} ∧
    RuleSet.loadPoliciesInto (loadPolicies [macroMergeP1, macroMergeP2m] {}).1
        [macroMergeP1, macroMergeP2m] {} = loadPolicies [macroMergeP1, macroMergeP2m] {} ∧
    ((loadPolicies [macroMergeP1, macroMergeP2m] {}).2 = [] ∧
      alookup (loadPolicies [macroMergeP1, macroMergeP2m] {}).1.macroStore
          "test_macro" = some (.values ["/usr/bin/vi", "/usr/bin/vim"])) ∧
    ((RuleSet.loadPoliciesInto (loadPolicies [macroMergeP1, macroMergeP2m] {}).1
          [macroMergeP1, macroMergeP2c] {}).2 = [.macroIdConflict "test_macro"] ∧
      alookup (RuleSet.loadPoliciesInto (loadPolicies [macroMergeP1, macroMergeP2m] {}).1
          [macroMergeP1, macroMergeP2c] {}).1.macroStore "test_macro" =
        some (.values ["/usr/bin/vi"])) :=
  loadPolicies_reload_resets {} [macroMergeP1, macroMergeP2m] {}

/-- C3: a policy with rules `testA`, a syntactically invalid `testB` and a
duplicate `testA` yields exactly two enumerable errors, in order the
duplicate-ID error of `testA` and the syntax error of `testB`, each with its
per-rule message; `testA`'s first definition stays active and `testB` is
absent from the active rule set. -/
theorem ruleErrorLoading_enumerable :
    (loadPolicies [ruleErrPolicy] {}).2.length = 2 ∧
    (loadPolicies [ruleErrPolicy] {}).2 =
      [.ruleIdConflict "testA", .ruleSynErr "testB" "1:16: unexpected token"] ∧
    (loadPolicies [ruleErrPolicy] {}).2.map LoadError.message =
      ["rule `testA` definition error: multiple definition with the same ID",
       "rule `testB` definition error: syntax error: 1:16: unexpected token"] ∧
    (alookup (loadPolicies [ruleErrPolicy] {}).1.rules "testA").map
        (fun cr => cr.rdef.expression) =
      some (.valid (.cmpEq (.field .openFilename) (.lit (.vStr "/tmp/test")))) ∧
    alookup (loadPolicies [ruleErrPolicy] {}).1.rules "testB" = none := by
  decide

/-- C7: evaluating the `TestActionSetVariable` policy — the load succeeds; a
typeless event matches no rule and leaves the variable state unchanged; the
event opening `/tmp/test` matches `test_rule`, whose ordered Set actions
write the global and process-scoped variables; those variables persist, so a
later event opening `/tmp/test2` matches `test_rule2`, whose expression
observes `var1` (and the other nine variables) with the values set earlier. -/
theorem evaluate_actions_persist :
    (loadPolicies [setVarPolicy] {}).2 = [] ∧
    evaluate setVarRS {} setVarEv0 = (false, {}) ∧
    (evaluate setVarRS {} setVarEv1).1 = true ∧
    alookup (evaluate setVarRS {} setVarEv1).2.global "var1" = some (.vBool true) ∧
    alookup (evaluate setVarRS {} setVarEv1).2.scopedVars ("myprocess", "var4") =
      some (.vInt 123) ∧
    (evaluate setVarRS (evaluate setVarRS {} setVarEv1).2 setVarEv2).1 = true := by
  decide

/-- C8: with no variable ever set, `Evaluate` is total and returns false for
every event that does not match `test_rule`'s filename condition — in
particular for events matching `test_rule2`'s filename condition, whose
expression references the ten unset variables: each comparison with an unset
variable evaluates false rather than failing, and the state is unchanged. -/
theorem evaluate_unset_vars_safe (ev : TestEvent)
    (h : ¬ ev.openf.filename = "/tmp/test") :
    evaluate setVarRS {} ev = (false, {}) := by
  have hr : setVarRS.rules =
      [("test_rule",
        ⟨⟨"test_rule", .valid (.cmpEq (.field .openFilename) (.lit (.vStr "/tmp/test"))),
          setVarActions, "", ""⟩,
         .cmpEq (.field .openFilename) (.lit (.vStr "/tmp/test")), some "open"⟩),
       ("test_rule2",
        ⟨⟨"test_rule2", .valid setVarCheckExpr, [], "", ""⟩,
         setVarCheckExpr, some "open"⟩)] := by decide
  unfold evaluate
  rw [hr]
  simp [evalRules, ruleApplies, evalExpr, evalTerm, getVar, alookup, Field.value,
    setVarCheckExpr, h]

/-- Witness for C8 at the `/tmp/test2` event: `test_rule2`'s filename
condition holds but its unset-variable comparisons evaluate false. -/
theorem evaluate_unset_vars_safe_witness :
    ¬ setVarEv2.openf.filename = "/tmp/test" ∧
    evaluate setVarRS {} setVarEv2 = (false, {}) :=
  ⟨by decide, evaluate_unset_vars_safe setVarEv2 (by decide)⟩

/-- C4: a rule and a macro whose agent-version constraint excludes the
current agent version are absent from the loaded stores, recorded in the
policy's skipped lists, and produce no load error; concretely, at agent
version 7.38 the rule constrained by `>= 7.30, < 7.39, != 7.38` is skipped
while the rules constrained by `>= 7.38` and `> 7.37` are loaded. -/
theorem versionFilter_skips_not_errors
    (r : RuleDefinition) (m : MacroDefinition) (v : SemVer)
    (hr : constraintAcceptsStr v r.agentVersionConstraint = false)
    (hm : constraintAcceptsStr v m.agentVersionConstraint = false) :
    loadPolicies [⟨"p", [m], [r]⟩] ⟨[.agentVersion v], [.agentVersion v]⟩ =
      ({ macroStore := [], rules := [], policies := [⟨"p", [m.id], [r.id]⟩] }, []) ∧
    (alookup (loadPolicies [constraintPolicy] opts738).1.rules "range_not" = none ∧
     alookup (loadPolicies [constraintPolicy] opts738).1.rules "basic" = none ∧
     (loadPolicies [constraintPolicy] opts738).1.policies =
       [⟨"test.policy", ["macro2"], ["conflict", "basic", "range_not"]⟩] ∧
     (loadPolicies [constraintPolicy] opts738).2 = [] ∧
     (alookup (loadPolicies [constraintPolicy] opts738).1.rules "rc_prerelease").isSome =
       true ∧
     (alookup (loadPolicies [constraintPolicy] opts738).1.rules "basic2").isSome =
       true) := by
  constructor
  · simp [loadPolicies, mergePolicies, loadMacros, loadRules, compileRules,
      LoadFilter.acceptsMacro, LoadFilter.acceptsRule, hr, hm]
  · decide

/-- Witness for C4 at agent version 7.38 with the `range_not` rule and the
first `macro2` definition of `TestRuleAgentConstraint`. -/
theorem versionFilter_skips_not_errors_witness :
    loadPolicies
        [⟨"p", [⟨"macro2", .ints [3, 4], "", ">= 7.37, < 7.38"⟩],
          [⟨"range_not",
            .valid (.cmpEq (.field .openFilename) (.lit (.vStr "/tmp/test"))),
            [], "", ">= 7.30, < 7.39, != 7.38"⟩]⟩]
        ⟨[.agentVersion ⟨7, 38, 0⟩], [.agentVersion ⟨7, 38, 0⟩]⟩ =
      ({ macroStore := [], rules := [], policies := [⟨"p", ["macro2"], ["range_not"]⟩] },
        []) ∧
    (alookup (loadPolicies [constraintPolicy] opts738).1.rules "range_not" = none ∧
     alookup (loadPolicies [constraintPolicy] opts738).1.rules "basic" = none ∧
     (loadPolicies [constraintPolicy] opts738).1.policies =
       [⟨"test.policy", ["macro2"], ["conflict", "basic", "range_not"]⟩] ∧
     (loadPolicies [constraintPolicy] opts738).2 = [] ∧
     (alookup (loadPolicies [constraintPolicy] opts738).1.rules "rc_prerelease").isSome =
       true ∧
     (alookup (loadPolicies [constraintPolicy] opts738).1.rules "basic2").isSome =
       true) :=
  versionFilter_skips_not_errors
    ⟨"range_not", .valid (.cmpEq (.field .openFilename) (.lit (.vStr "/tmp/test"))),
      [], "", ">= 7.30, < 7.39, != 7.38"⟩
    ⟨"macro2", .ints [3, 4], "", ">= 7.37, < 7.38"⟩
    ⟨7, 38, 0⟩ (by decide) (by decide)

/-- C9: with a rule-ID allow-list filter supplied, `LoadPolicies` accepts
exactly the rules whose ID the filter accepts, regardless of their version
constraints: the non-matching rule is absent from the active set and skipped
without error, the matching rule is present. -/
theorem ruleIDFilter_allowlist
    (r1 r2 : RuleDefinition) (fid : String) (e2 : Expr)
    (h1 : ¬ r1.id = fid) (h2 : r2.id = fid)
    (hexpr : r2.expression = ExprSrc.valid e2) (hrefs : e2.macroRefs = [])
    (hacts : r2.actions = []) :
    (loadPolicies [⟨"p", [], [r1, r2]⟩] ⟨[], [.ruleID fid]⟩).2 = [] ∧
    alookup (loadPolicies [⟨"p", [], [r1, r2]⟩] ⟨[], [.ruleID fid]⟩).1.rules r1.id =
      none ∧
    (alookup (loadPolicies [⟨"p", [], [r1, r2]⟩] ⟨[], [.ruleID fid]⟩).1.rules
        r2.id).map (fun cr => cr.rdef) = some r2 ∧
    (loadPolicies [⟨"p", [], [r1, r2]⟩] ⟨[], [.ruleID fid]⟩).1.policies =
      [⟨"p", [], [r1.id]⟩] := by
  have hne : ¬ r2.id = r1.id := by
    rw [h2]
    exact fun hh => h1 hh.symm
  have hne2 : ¬ fid = r1.id := fun hh => h1 hh.symm
  simp [loadPolicies, mergePolicies, loadMacros, loadRules, compileRules, alookup,
    LoadFilter.acceptsRule, h1, h2, hne, hne2, hexpr, hrefs, hacts, checkActions]

/-- Witness for C9 at the `TestRuleIDFilter` policy (allow-list on `test2`). -/
theorem ruleIDFilter_allowlist_witness :
    (loadPolicies [⟨"p", [],
        [⟨"test1", .valid (.cmpEq (.field .openFilename) (.lit (.vStr "/tmp/test"))),
          [], "", ""⟩,
         ⟨"test2", .valid (.cmpNe (.field .openFilename) (.lit (.vStr "/tmp/test"))),
          [], "", ""⟩]⟩] ⟨[], [.ruleID "test2"]⟩).2 = [] ∧
    alookup (loadPolicies [⟨"p", [],
        [⟨"test1", .valid (.cmpEq (.field .openFilename) (.lit (.vStr "/tmp/test"))),
          [], "", ""⟩,
         ⟨"test2", .valid (.cmpNe (.field .openFilename) (.lit (.vStr "/tmp/test"))),
          [], "", ""⟩]⟩] ⟨[], [.ruleID "test2"]⟩).1.rules "test1" = none ∧
    (alookup (loadPolicies [⟨"p", [],
        [⟨"test1", .valid (.cmpEq (.field .openFilename) (.lit (.vStr "/tmp/test"))),
          [], "", ""⟩,
         ⟨"test2", .valid (.cmpNe (.field .openFilename) (.lit (.vStr "/tmp/test"))),
          [], "", ""⟩]⟩] ⟨[], [.ruleID "test2"]⟩).1.rules "test2").map
      (fun cr => cr.rdef) =
      some ⟨"test2", .valid (.cmpNe (.field .openFilename) (.lit (.vStr "/tmp/test"))),
        [], "", ""⟩ ∧
    (loadPolicies [⟨"p", [],
        [⟨"test1", .valid (.cmpEq (.field .openFilename) (.lit (.vStr "/tmp/test"))),
          [], "", ""⟩,
         ⟨"test2", .valid (.cmpNe (.field .openFilename) (.lit (.vStr "/tmp/test"))),
          [], "", ""⟩]⟩] ⟨[], [.ruleID "test2"]⟩).1.policies = [⟨"p", [], ["test1"]⟩] :=
  ruleIDFilter_allowlist
    ⟨"test1", .valid (.cmpEq (.field .openFilename) (.lit (.vStr "/tmp/test"))), [], "", ""⟩
    ⟨"test2", .valid (.cmpNe (.field .openFilename) (.lit (.vStr "/tmp/test"))), [], "", ""⟩
    "test2" (.cmpNe (.field .openFilename) (.lit (.vStr "/tmp/test")))
    (by decide) rfl rfl rfl rfl

/-- C10: filtering precedes duplicate-ID conflict detection — when two rule
definitions of one load share an ID but the first is rejected by the
agent-version filter and the second accepted, the load reports no
ID-conflict error, the surviving (second) definition is the active one, and
the rejected definition is only recorded as skipped. -/
theorem filter_precedes_conflict_detection
    (r1 r2 : RuleDefinition) (v : SemVer) (e2 : Expr)
    (hid : r2.id = r1.id)
    (h1 : constraintAcceptsStr v r1.agentVersionConstraint = false)
    (h2 : constraintAcceptsStr v r2.agentVersionConstraint = true)
    (hexpr : r2.expression = ExprSrc.valid e2) (hrefs : e2.macroRefs = [])
    (hacts : r2.actions = []) :
    (loadPolicies [⟨"p", [], [r1, r2]⟩] ⟨[], [.agentVersion v]⟩).2 = [] ∧
    (alookup (loadPolicies [⟨"p", [], [r1, r2]⟩] ⟨[], [.agentVersion v]⟩).1.rules
        r1.id).map (fun cr => cr.rdef) = some r2 ∧
    (loadPolicies [⟨"p", [], [r1, r2]⟩] ⟨[], [.agentVersion v]⟩).1.policies =
      [⟨"p", [], [r1.id]⟩] := by
  simp [loadPolicies, mergePolicies, loadMacros, loadRules, compileRules, alookup,
    LoadFilter.acceptsRule, hid, h1, h2, hexpr, hrefs, hacts, checkActions]

/-- Witness for C10 at the two `conflict` definitions of
`TestRuleAgentConstraint` and agent version 7.38. -/
theorem filter_precedes_conflict_detection_witness :
    (loadPolicies [⟨"p", [],
        [⟨"conflict", .valid (.cmpEq (.field .openFilename) (.lit (.vStr "/tmp/test1"))),
          [], "", "< 7.37"⟩,
         ⟨"conflict", .valid (.cmpEq (.field .openFilename) (.lit (.vStr "/tmp/test2"))),
          [], "", ">= 7.37"⟩]⟩] ⟨[], [.agentVersion ⟨7, 38, 0⟩]⟩).2 = [] ∧
    (alookup (loadPolicies [⟨"p", [],
        [⟨"conflict", .valid (.cmpEq (.field .openFilename) (.lit (.vStr "/tmp/test1"))),
          [], "", "< 7.37"⟩,
         ⟨"conflict", .valid (.cmpEq (.field .openFilename) (.lit (.vStr "/tmp/test2"))),
          [], "", ">= 7.37"⟩]⟩] ⟨[], [.agentVersion ⟨7, 38, 0⟩]⟩).1.rules
        "conflict").map (fun cr => cr.rdef) =
      some ⟨"conflict", .valid (.cmpEq (.field .openFilename) (.lit (.vStr "/tmp/test2"))),
        [], "", ">= 7.37"⟩ ∧
    (loadPolicies [⟨"p", [],
        [⟨"conflict", .valid (.cmpEq (.field .openFilename) (.lit (.vStr "/tmp/test1"))),
          [], "", "< 7.37"⟩,
         ⟨"conflict", .valid (.cmpEq (.field .openFilename) (.lit (.vStr "/tmp/test2"))),
          [], "", ">= 7.37"⟩]⟩] ⟨[], [.agentVersion ⟨7, 38, 0⟩]⟩).1.policies =
      [⟨"p", [], ["conflict"]⟩] :=
  filter_precedes_conflict_detection
    ⟨"conflict", .valid (.cmpEq (.field .openFilename) (.lit (.vStr "/tmp/test1"))),
      [], "", "< 7.37"⟩
    ⟨"conflict", .valid (.cmpEq (.field .openFilename) (.lit (.vStr "/tmp/test2"))),
      [], "", ">= 7.37"⟩
    ⟨7, 38, 0⟩ (.cmpEq (.field .openFilename) (.lit (.vStr "/tmp/test2")))
    rfl (by decide) (by decide) rfl rfl rfl

/-- An array with a bool element has no valid element type. -/
theorem arrayBase_eq_none_of_bool (xs : List RawScalar) (x : RawScalar)
    (hx : x ∈ xs) (hb : x.base = BaseType.tBool) : arrayBase xs = none := by
  have h1 : xs.all (fun y => decide (y.base = BaseType.tString)) = false :=
    List.all_eq_false.mpr ⟨x, hx, by simp [hb]⟩
  have h2 : xs.all (fun y => decide (y.base = BaseType.tInt)) = false :=
    List.all_eq_false.mpr ⟨x, hx, by simp [hb]⟩
  simp [arrayBase, h1, h2]

/-- A heterogeneous array has no valid element type. -/
theorem arrayBase_eq_none_of_hetero (xs : List RawScalar) (x y : RawScalar)
    (hx : x ∈ xs) (hy : y ∈ xs) (hxy : ¬ x.base = y.base) : arrayBase xs = none := by
  have h1 : xs.all (fun z => decide (z.base = BaseType.tString)) = false := by
    rcases Decidable.em (x.base = BaseType.tString) with h | h
    · exact List.all_eq_false.mpr
        ⟨y, hy, by simp [show ¬ y.base = BaseType.tString from fun hh => hxy (h.trans hh.symm)]⟩
    · exact List.all_eq_false.mpr ⟨x, hx, by simp [h]⟩
  have h2 : xs.all (fun z => decide (z.base = BaseType.tInt)) = false := by
    rcases Decidable.em (x.base = BaseType.tInt) with h | h
    · exact List.all_eq_false.mpr
        ⟨y, hy, by simp [show ¬ y.base = BaseType.tInt from fun hh => hxy (h.trans hh.symm)]⟩
    · exact List.all_eq_false.mpr ⟨x, hx, by simp [h]⟩
  simp [arrayBase, h1, h2]

/-- A single-rule policy whose one Set action fails structural validation
loads with exactly that action's definition error and without the rule. -/
theorem singleRule_setErr_load (sd : SetDefinition) (e : Expr) (err : SetErr)
    (hres : sd.resolveBase = .error err) (hrefs : e.macroRefs = []) :
    (loadPolicies [⟨"p", [], [⟨"test_rule", .valid e, [⟨some sd⟩], "", ""⟩]⟩] {}).2 =
      [.ruleActionErr "test_rule" err] ∧
    alookup (loadPolicies [⟨"p", [],
        [⟨"test_rule", .valid e, [⟨some sd⟩], "", ""⟩]⟩] {}).1.rules "test_rule" =
      none := by
  simp [loadPolicies, mergePolicies, loadMacros, loadRules, compileRules, alookup,
    checkActions, checkSet, hres, hrefs]

/-- C5: two Set actions of one load targeting the same variable name and
scope whose resolved base types differ — a scalar re-set with another scalar
type, an Append whose base type differs from the existing array's element
type, or an Append of a Field whose type differs from the type pinned by a
prior Field-sourced Set — make `LoadPolicies` fail with a definition error
detected by simulating action compatibility at load time, and the offending
rule is excluded from the active set (never deferred to evaluation). -/
theorem setAction_type_conflict_load_error
    (sd1 sd2 : SetDefinition) (e : Expr) (t1 t2 : BaseType)
    (hname : sd2.name = sd1.name) (hscope : sd2.scope = sd1.scope)
    (h1 : sd1.resolveBase = .ok t1) (h2 : sd2.resolveBase = .ok t2)
    (hne : ¬ t1 = t2) (hrefs : e.macroRefs = []) :
    (loadPolicies [⟨"p", [],
        [⟨"test_rule", .valid e, [⟨some sd1⟩, ⟨some sd2⟩], "", ""⟩]⟩] {}).2 =
      [.ruleActionErr "test_rule" .typeConflict] ∧
    alookup (loadPolicies [⟨"p", [],
        [⟨"test_rule", .valid e, [⟨some sd1⟩, ⟨some sd2⟩], "", ""⟩]⟩] {}).1.rules
      "test_rule" = none := by
  simp [loadPolicies, mergePolicies, loadMacros, loadRules, compileRules, alookup,
    checkActions, checkSet, h1, h2, hname, hscope, hne, hrefs]

/-- The filename expression shared by the conflict scenarios. -/
def tmpTestExpr : Expr := .cmpEq (.field .openFilename) (.lit (.vStr "/tmp/test"))

/-- `var1 = true` (scalar bool). -/
def cwSetBool : SetDefinition := { name := "var1", value := some (.scalar (.b true)) }

/-- `var1 = "value"` (scalar string). -/
def cwSetStr : SetDefinition := { name := "var1", value := some (.scalar (.s "value")) }

/-- `var1` append of a string array. -/
def cwAppendStrArr : SetDefinition :=
  { name := "var1", value := some (.array [.s "abc"]), append := true }

/-- `var1` append of a scalar bool. -/
def cwAppendBool : SetDefinition :=
  { name := "var1", value := some (.scalar (.b true)), append := true }

/-- `var1` set from field `open.filename`. -/
def cwFieldFilename : SetDefinition := { name := "var1", field := some .openFilename }

/-- `var1` append from field `open.filename`. -/
def cwAppendFieldFilename : SetDefinition :=
  { name := "var1", field := some .openFilename, append := true }

/-- `var1` append from field `process.is_root`. -/
def cwAppendFieldIsRoot : SetDefinition :=
  { name := "var1", field := some .processIsRoot, append := true }

/-- Witness for C5 at the scenarios of `TestActionSetVariableConflict` and
`TestActionSetVariableInvalid`: bool-then-string scalar re-set, string-array
then bool append, field-then-bool append, and field-then-field append. -/
theorem setAction_type_conflict_load_error_witness :
    ((loadPolicies [⟨"p", [],
        [⟨"test_rule", .valid tmpTestExpr, [⟨some cwSetBool⟩, ⟨some cwSetStr⟩], "", ""⟩]⟩]
        {}).2 = [.ruleActionErr "test_rule" .typeConflict] ∧
      alookup (loadPolicies [⟨"p", [],
        [⟨"test_rule", .valid tmpTestExpr, [⟨some cwSetBool⟩, ⟨some cwSetStr⟩], "", ""⟩]⟩]
        {}).1.rules "test_rule" = none) ∧
    ((loadPolicies [⟨"p", [],
        [⟨"test_rule", .valid tmpTestExpr,
          [⟨some cwAppendStrArr⟩, ⟨some cwAppendBool⟩], "", ""⟩]⟩] {}).2 =
        [.ruleActionErr "test_rule" .typeConflict] ∧
      alookup (loadPolicies [⟨"p", [],
        [⟨"test_rule", .valid tmpTestExpr,
          [⟨some cwAppendStrArr⟩, ⟨some cwAppendBool⟩], "", ""⟩]⟩] {}).1.rules
        "test_rule" = none) ∧
    ((loadPolicies [⟨"p", [],
        [⟨"test_rule", .valid tmpTestExpr,
          [⟨some cwFieldFilename⟩, ⟨some cwAppendBool⟩], "", ""⟩]⟩] {}).2 =
        [.ruleActionErr "test_rule" .typeConflict] ∧
      alookup (loadPolicies [⟨"p", [],
        [⟨"test_rule", .valid tmpTestExpr,
          [⟨some cwFieldFilename⟩, ⟨some cwAppendBool⟩], "", ""⟩]⟩] {}).1.rules
        "test_rule" = none) ∧
    ((loadPolicies [⟨"p", [],
        [⟨"test_rule", .valid tmpTestExpr,
          [⟨some cwAppendFieldFilename⟩, ⟨some cwAppendFieldIsRoot⟩], "", ""⟩]⟩] {}).2 =
        [.ruleActionErr "test_rule" .typeConflict] ∧
      alookup (loadPolicies [⟨"p", [],
        [⟨"test_rule", .valid tmpTestExpr,
          [⟨some cwAppendFieldFilename⟩, ⟨some cwAppendFieldIsRoot⟩], "", ""⟩]⟩]
        {}).1.rules "test_rule" = none) :=
  ⟨setAction_type_conflict_load_error cwSetBool cwSetStr tmpTestExpr
      .tBool .tString rfl rfl rfl rfl (by decide) rfl,
   setAction_type_conflict_load_error cwAppendStrArr cwAppendBool tmpTestExpr
      .tString .tBool rfl rfl rfl rfl (by decide) rfl,
   setAction_type_conflict_load_error cwFieldFilename cwAppendBool tmpTestExpr
      .tString .tBool rfl rfl rfl rfl (by decide) rfl,
   setAction_type_conflict_load_error cwAppendFieldFilename cwAppendFieldIsRoot
      tmpTestExpr .tString .tBool rfl rfl rfl rfl (by decide) rfl⟩

/-- C6: a `SetDefinition` whose value is structurally invalid — both Field
and Value specified, Value a bool array (always, regardless of usage), Value
a heterogeneous array, or Value nil without a Field — makes `LoadPolicies`
return a definition error and the offending rule fails to load. -/
theorem setAction_invalid_structure_load_error (sd : SetDefinition) (e : Expr)
    (hbad : (sd.value.isSome ∧ sd.field.isSome) ∨
      (∃ xs, sd.value = some (.array xs) ∧ sd.field = none ∧ xs ≠ [] ∧
        ∀ x ∈ xs, x.base = BaseType.tBool) ∨
      (∃ xs, sd.value = some (.array xs) ∧ sd.field = none ∧
        ∃ x ∈ xs, ∃ y ∈ xs, ¬ x.base = y.base) ∨
      (sd.value = none ∧ sd.field = none))
    (hrefs : e.macroRefs = []) :
    ∃ err,
      (loadPolicies [⟨"p", [], [⟨"test_rule", .valid e, [⟨some sd⟩], "", ""⟩]⟩] {}).2 =
        [.ruleActionErr "test_rule" err] ∧
      alookup (loadPolicies [⟨"p", [],
          [⟨"test_rule", .valid e, [⟨some sd⟩], "", ""⟩]⟩] {}).1.rules "test_rule" =
        none := by
  have hres : ∃ err, sd.resolveBase = .error err := by
    rcases hbad with ⟨hv, hf⟩ | ⟨xs, hv, hf, hne, hall⟩ |
      ⟨xs, hv, hf, x, hx, y, hy, hxy⟩ | ⟨hv, hf⟩
    · rcases Option.isSome_iff_exists.mp hv with ⟨rv, hrv⟩
      rcases Option.isSome_iff_exists.mp hf with ⟨f, hfv⟩
      exact ⟨.bothFieldAndValue, by simp [SetDefinition.resolveBase, hrv, hfv]⟩
    · have hwit : ∃ x ∈ xs, x.base = BaseType.tBool := by
        cases xs with
        | nil => exact absurd rfl hne
        | cons z rest => exact ⟨z, List.mem_cons_self z rest, hall z (List.mem_cons_self z rest)⟩
      rcases hwit with ⟨x, hx, hb⟩
      have harr := arrayBase_eq_none_of_bool xs x hx hb
      exact ⟨.invalidArray, by simp [SetDefinition.resolveBase, hv, hf, harr]⟩
    · have harr := arrayBase_eq_none_of_hetero xs x y hx hy hxy
      exact ⟨.invalidArray, by simp [SetDefinition.resolveBase, hv, hf, harr]⟩
    · exact ⟨.nilValue, by simp [SetDefinition.resolveBase, hv, hf]⟩
  rcases hres with ⟨err, herr⟩
  exact ⟨err, singleRule_setErr_load sd e err herr hrefs⟩

/-- Both Field and Value supplied, as in the `both-field-and-value` case. -/
def cwBothFieldValue : SetDefinition :=
  { name := "var1", value := some (.array [.s "abc"]), field := some .openFilename }

/-- A bool-array Value, as in the `bool-array` case. -/
def cwBoolArr : SetDefinition := { name := "var1", value := some (.array [.b true]) }

/-- A heterogeneous array Value, as in the `heterogeneous-array` case. -/
def cwHeteroArr : SetDefinition :=
  { name := "var1", value := some (.array [.s "string", .b true]) }

/-- A nil Value without Field, as in the `nil-values` case. -/
def cwNilValue : SetDefinition := { name := "var1" }

/-- Witness for C6 at the four invalid scenarios of
`TestActionSetVariableInvalid`. -/
theorem setAction_invalid_structure_load_error_witness :
    (∃ err, (loadPolicies [⟨"p", [],
        [⟨"test_rule", .valid tmpTestExpr, [⟨some cwBothFieldValue⟩], "", ""⟩]⟩] {}).2 =
        [.ruleActionErr "test_rule" err] ∧
      alookup (loadPolicies [⟨"p", [],
        [⟨"test_rule", .valid tmpTestExpr, [⟨some cwBothFieldValue⟩], "", ""⟩]⟩]
        {}).1.rules "test_rule" = none) ∧
    (∃ err, (loadPolicies [⟨"p", [],
        [⟨"test_rule", .valid tmpTestExpr, [⟨some cwBoolArr⟩], "", ""⟩]⟩] {}).2 =
        [.ruleActionErr "test_rule" err] ∧
      alookup (loadPolicies [⟨"p", [],
        [⟨"test_rule", .valid tmpTestExpr, [⟨some cwBoolArr⟩], "", ""⟩]⟩]
        {}).1.rules "test_rule" = none) ∧
    (∃ err, (loadPolicies [⟨"p", [],
        [⟨"test_rule", .valid tmpTestExpr, [⟨some cwHeteroArr⟩], "", ""⟩]⟩] {}).2 =
        [.ruleActionErr "test_rule" err] ∧
      alookup (loadPolicies [⟨"p", [],
        [⟨"test_rule", .valid tmpTestExpr, [⟨some cwHeteroArr⟩], "", ""⟩]⟩]
        {}).1.rules "test_rule" = none) ∧
    (∃ err, (loadPolicies [⟨"p", [],
        [⟨"test_rule", .valid tmpTestExpr, [⟨some cwNilValue⟩], "", ""⟩]⟩] {}).2 =
        [.ruleActionErr "test_rule" err] ∧
      alookup (loadPolicies [⟨"p", [],
        [⟨"test_rule", .valid tmpTestExpr, [⟨some cwNilValue⟩], "", ""⟩]⟩]
        {}).1.rules "test_rule" = none) :=
  ⟨setAction_invalid_structure_load_error cwBothFieldValue tmpTestExpr
      (Or.inl ⟨by decide, by decide⟩) rfl,
   setAction_invalid_structure_load_error cwBoolArr tmpTestExpr
      (Or.inr (Or.inl ⟨[.b true], rfl, rfl, by decide, by decide⟩)) rfl,
   setAction_invalid_structure_load_error cwHeteroArr tmpTestExpr
      (Or.inr (Or.inr (Or.inl ⟨[.s "string", .b true], rfl, rfl,
        .s "string", by decide, .b true, by decide, by decide⟩))) rfl,
   setAction_invalid_structure_load_error cwNilValue tmpTestExpr
      (Or.inr (Or.inr (Or.inr ⟨rfl, rfl⟩))) rfl⟩

end SeclRules
